import Mathlib

/-!
Verification development for the F&B demand-prediction agent
(`backend/agents/demand_predictor.py` and `backend/models/schemas.py`).

Modelling conventions:
* Python floats are modelled as rationals (`ℚ`); `int(x)` is truncation
  toward zero, `round(x, d)` is round-half-to-even at `d` decimal digits.
* The global `random` module is modelled abstractly: after `random.seed(n)`
  the generator state is the pair `(n, 0)`, and each library call consumes
  one draw from an arbitrary stream `g : ℤ → ℕ → ℚ` indexed by
  (seed, draw counter).  A stream is well formed when every draw lies in
  `[0, 1)`; `randint`, `uniform` and `choice` are derived from single draws
  with their documented ranges.
* `datetime.date` values are modelled by the record of the fields the code
  reads: year, month, day, `weekday()` (Monday = 0) and `toordinal()`.
  Dates inside `Pattern` records only ever flow through arithmetic on the
  ordinal, so they are carried as ordinals.
-/

namespace FB

/-- A draw stream: the value of the n-th draw of Python's global PRNG after
it was last seeded with a given integer seed. -/
def DrawStream : Type := ℤ → ℕ → ℚ

/-- State of Python's global `random` generator: current seed and how many
draws have been consumed since seeding. -/
structure RState where
  seed : ℤ
  idx : ℕ
deriving DecidableEq

/-- Every draw of the stream lies in `[0, 1)`, as `random.random()` does. -/
def UnitStream (g : DrawStream) : Prop := ∀ s i, 0 ≤ g s i ∧ g s i < 1

/-- `random.seed(n)`: resets the generator, discarding the previous state. -/
def seedR (n : ℤ) (_st : RState) : RState := ⟨n, 0⟩

/-- Advance the generator by one draw. -/
def rnext (st : RState) : RState := ⟨st.seed, st.idx + 1⟩

/-- `random.random()`. -/
def pyRandom (g : DrawStream) (st : RState) : ℚ × RState :=
  (g st.seed st.idx, rnext st)

/-- `random.randint(a, b)`: inclusive integer range. -/
def pyRandint (g : DrawStream) (a b : ℤ) (st : RState) : ℤ × RState :=
  (a + ⌊g st.seed st.idx * ((b : ℚ) - (a : ℚ) + 1)⌋, rnext st)

/-- `random.uniform(a, b)`. -/
def pyUniform (g : DrawStream) (a b : ℚ) (st : RState) : ℚ × RState :=
  (a + g st.seed st.idx * (b - a), rnext st)

/-- `random.choice(xs)`. -/
def pyChoice {α : Type} [Inhabited α] (g : DrawStream) (xs : List α) (st : RState) : α × RState :=
  (xs.getD (⌊g st.seed st.idx * (xs.length : ℚ)⌋).toNat default, rnext st)

/-- Python `round` to an integer: round half to even. -/
def pyRoundHalfEven (q : ℚ) : ℤ :=
  if q - ⌊q⌋ < 1/2 then ⌊q⌋
  else if 1/2 < q - ⌊q⌋ then ⌊q⌋ + 1
  else if 2 ∣ ⌊q⌋ then ⌊q⌋ else ⌊q⌋ + 1

/-- Python `round(q, d)` for `d` decimal digits. -/
def pyRoundTo (q : ℚ) (d : ℕ) : ℚ :=
  (pyRoundHalfEven (q * 10 ^ d) : ℚ) / 10 ^ d

/-- Python `int()` applied to a float: truncation toward zero. -/
def pyInt (q : ℚ) : ℤ :=
  if 0 ≤ q then ⌊q⌋ else ⌈q⌉

/-- Calendar date as the fields of `datetime.date` the code reads.
`weekday` is `date.weekday()` (Monday = 0), `ordinal` is `date.toordinal()`.
Concrete instances below use real calendar values. -/
structure SDate where
  year : ℕ
  month : ℕ
  day : ℕ
  weekday : ℕ
  ordinal : ℤ
deriving DecidableEq

/-- `ServiceType` enum from `schemas.py`. -/
inductive ServiceType where
  | lunch
  | dinner
  | brunch
deriving DecidableEq

/-- The string value of a `ServiceType` member. -/
def ServiceType.value : ServiceType → String
  | .lunch => "lunch"
  | .dinner => "dinner"
  | .brunch => "brunch"

/-- `PredictionRequest` from `schemas.py`. -/
structure PredictionRequest where
  restaurant_id : String
  service_date : SDate
  service_type : ServiceType
deriving DecidableEq

/-- The `metadata` mapping attached to every `Pattern` the agent builds
(`_qdrant_hit_to_pattern` and `_generate_mock_patterns` both populate
exactly these keys).  `source` is the provenance tag. -/
structure PatternMeta where
  day_of_week : Option String
  weather : Option String
  events : ℕ
  holiday : Option String
  source : String
deriving DecidableEq, Inhabited

/-- `Pattern` from `schemas.py`.  `similarity` carries the pydantic bounds
`ge=0.0, le=1.0` as the separate predicate `Pattern.schemaValid`;
`actual_covers` is an unconstrained `int` in the schema.  The pattern date
is carried as its ordinal. -/
structure Pattern where
  pattern_id : String
  date : ℤ
  event_type : Option String
  actual_covers : ℤ
  similarity : ℚ
  metadata : PatternMeta
deriving DecidableEq, Inhabited

/-- The pydantic validation constraint on `Pattern.similarity`
(`Field(..., ge=0.0, le=1.0)`). -/
def Pattern.schemaValid (p : Pattern) : Prop :=
  0 ≤ p.similarity ∧ p.similarity ≤ 1

/-- One mock event dict built by `_generate_mock_events`. -/
structure MockEvent where
  etype : String
  name : String
  distance_km : ℚ
  expected_attendance : ℤ
  start_time : String
  impact : String
deriving DecidableEq, Inhabited

/-- One entry of the `event_types` catalog in `_generate_mock_events`. -/
structure EventCatalog where
  etype : String
  names : List String
  att_lo : ℤ
  att_hi : ℤ
  dist_lo : ℚ
  dist_hi : ℚ
  impact : String
deriving DecidableEq, Inhabited

/-- The fixed event catalog of `_generate_mock_events`. -/
def event_types : List EventCatalog :=
  [⟨"Concert", ["Coldplay", "Taylor Swift", "Ed Sheeran", "Beyonce"],
    30000, 60000, 15/10, 5, "high"⟩,
   ⟨"Sports Match", ["PSG vs Marseille", "France vs England", "Champions League Final"],
    40000, 80000, 2, 6, "high"⟩,
   ⟨"Theater Show", ["Hamilton", "Les Miserables", "Phantom of the Opera"],
    1000, 3000, 5/10, 2, "medium"⟩,
   ⟨"Conference", ["Tech Summit", "Marketing Expo", "Healthcare Forum"],
    500, 2000, 2/10, 15/10, "medium"⟩]

/-- `"20:00" if event_type["type"] in ["Concert", "Theater Show"] else "19:00"`. -/
def start_time_for (etype : String) : String :=
  if etype = "Concert" ∨ etype = "Theater Show" then "20:00" else "19:00"

/-- Build one event dict from a chosen catalog entry: name choice, distance
`round(uniform(lo, hi), 1)`, attendance `randint(lo, hi)`, in the
evaluation order of the dict literal in `_generate_mock_events`. -/
def draw_event (g : DrawStream) (cat : EventCatalog) (start_time : String) (st : RState) :
    MockEvent × RState :=
  let nm := (pyChoice g cat.names st).1
  let st1 := (pyChoice g cat.names st).2
  let dk := (pyUniform g cat.dist_lo cat.dist_hi st1).1
  let st2 := (pyUniform g cat.dist_lo cat.dist_hi st1).2
  let att := (pyRandint g cat.att_lo cat.att_hi st2).1
  let st3 := (pyRandint g cat.att_lo cat.att_hi st2).2
  (⟨cat.etype, nm, pyRoundTo dk 1, att, start_time, cat.impact⟩, st3)

/-- `_generate_mock_events`: seeds on `service_date.toordinal()`, draws an
event with probability 0.7 (weekend) / 0.3, plus a 20% second distinct-type
event on weekends. -/
def generate_mock_events (g : DrawStream) (service_date : SDate) (is_weekend : Bool)
    (st0 : RState) : List MockEvent × RState :=
  let st := seedR service_date.ordinal st0
  let event_probability : ℚ := if is_weekend then 7/10 else 3/10
  let r := (pyRandom g st).1
  let st1 := (pyRandom g st).2
  if r < event_probability then
    let event_type := (pyChoice g event_types st1).1
    let st2 := (pyChoice g event_types st1).2
    let e1 := (draw_event g event_type (start_time_for event_type.etype) st2).1
    let st3 := (draw_event g event_type (start_time_for event_type.etype) st2).2
    if is_weekend then
      let r2 := (pyRandom g st3).1
      let st4 := (pyRandom g st3).2
      if r2 < 2/10 then
        let rest := event_types.filter (fun t => decide (t ≠ event_type))
        let second_type := (pyChoice g rest st4).1
        let st5 := (pyChoice g rest st4).2
        let snd_time : String := "21:00"
        let e2 := (draw_event g second_type snd_time st5).1
        let st6 := (draw_event g second_type snd_time st5).2
        ([e1, e2], st6)
      else ([e1], st4)
    else ([e1], st3)
  else ([], st1)

/-- Weather dict built by `_generate_mock_weather`. -/
structure Weather where
  condition : String
  temperature : ℤ
  precipitation : ℤ
  wind_speed : ℤ
deriving DecidableEq

/-- The categorical condition distribution of `_generate_mock_weather`. -/
def conditionsTable : List (String × ℚ) :=
  [("Clear", 4/10), ("Partly Cloudy", 3/10), ("Cloudy", 15/100),
   ("Rain", 1/10), ("Heavy Rain", 3/100), ("Snow", 2/100)]

/-- The cumulative-probability selection loop of `_generate_mock_weather`:
`selected_condition` starts as `"Clear"` and is overwritten on the first
entry whose cumulative probability reaches `rand`. -/
def pickCondition (rand : ℚ) : ℚ → List (String × ℚ) → String
  | _, [] => "Clear"
  | cumulative, (c, p) :: rest =>
      if rand ≤ cumulative + p then c else pickCondition rand (cumulative + p) rest

/-- `_generate_mock_weather`: seeds on `toordinal() + 1000`; note that the
Python dict literal for precipitation evaluates every `randint` before
`.get` selects one entry, so all five draws are consumed. -/
def generate_mock_weather (g : DrawStream) (service_date : SDate) (_is_weekend : Bool)
    (st0 : RState) : Weather × RState :=
  let st := seedR (service_date.ordinal + 1000) st0
  let rand := (pyRandom g st).1
  let st1 := (pyRandom g st).2
  let selected_condition := pickCondition rand 0 conditionsTable
  let month := service_date.month
  let temp_range : ℤ × ℤ :=
    if month = 12 ∨ month = 1 ∨ month = 2 then (0, 10)
    else if month = 3 ∨ month = 4 ∨ month = 5 then (10, 20)
    else if month = 6 ∨ month = 7 ∨ month = 8 then (20, 30)
    else (10, 20)
  let temperature := (pyRandint g temp_range.1 temp_range.2 st1).1
  let st2 := (pyRandint g temp_range.1 temp_range.2 st1).2
  let p_partly := (pyRandint g 0 10 st2).1
  let st3 := (pyRandint g 0 10 st2).2
  let p_cloudy := (pyRandint g 10 30 st3).1
  let st4 := (pyRandint g 10 30 st3).2
  let p_rain := (pyRandint g 40 70 st4).1
  let st5 := (pyRandint g 40 70 st4).2
  let p_heavy := (pyRandint g 70 100 st5).1
  let st6 := (pyRandint g 70 100 st5).2
  let p_snow := (pyRandint g 30 60 st6).1
  let st7 := (pyRandint g 30 60 st6).2
  let precipitation : ℤ :=
    if selected_condition = "Clear" then 0
    else if selected_condition = "Partly Cloudy" then p_partly
    else if selected_condition = "Cloudy" then p_cloudy
    else if selected_condition = "Rain" then p_rain
    else if selected_condition = "Heavy Rain" then p_heavy
    else if selected_condition = "Snow" then p_snow
    else 0
  let wind_speed := (pyRandint g 5 25 st7).1
  let st8 := (pyRandint g 5 25 st7).2
  (⟨selected_condition, temperature, precipitation, wind_speed⟩, st8)

/-- The fixed `(month, day)` holiday table of `_is_mock_holiday`. -/
def holidayList : List (ℕ × ℕ) :=
  [(12, 24), (12, 25), (12, 31), (1, 1), (7, 14), (11, 11), (5, 1)]

/-- `_is_mock_holiday`. -/
def is_mock_holiday (d : SDate) : Bool :=
  holidayList.contains (d.month, d.day)

/-- `_get_holiday_name`: the `(month, day) → name` mapping. -/
def get_holiday_name (d : SDate) : Option String :=
  if (d.month, d.day) = (12, 24) then some ("Christmas Eve")
  else if (d.month, d.day) = (12, 25) then some ("Christmas")
  else if (d.month, d.day) = (12, 31) then some ("New Year's Eve")
  else if (d.month, d.day) = (1, 1) then some ("New Year's Day")
  else if (d.month, d.day) = (7, 14) then some ("Bastille Day")
  else if (d.month, d.day) = (11, 11) then some ("Veterans Day")
  else if (d.month, d.day) = (5, 1) then some ("Labor Day")
  else none

/-- `strftime("%A")` from `weekday()`. -/
def weekdayName : ℕ → String
  | 0 => "Monday"
  | 1 => "Tuesday"
  | 2 => "Wednesday"
  | 3 => "Thursday"
  | 4 => "Friday"
  | 5 => "Saturday"
  | 6 => "Sunday"
  | _ => ""

/-- The context dict returned by `_fetch_external_context`. -/
structure Ctx where
  day_of_week : String
  events : List MockEvent
  weather : Weather
  is_holiday : Bool
  holiday_name : Option String
  day_type : String
deriving DecidableEq

/-- `_fetch_external_context`. -/
def fetch_external_context (g : DrawStream) (request : PredictionRequest) (st0 : RState) :
    Ctx × RState :=
  let d := request.service_date
  let day_of_week := weekdayName d.weekday
  let is_weekend : Bool := d.weekday = 5 ∨ d.weekday = 6
  let is_friday : Bool := d.weekday = 4
  let events := (generate_mock_events g d is_weekend st0).1
  let st1 := (generate_mock_events g d is_weekend st0).2
  let weather := (generate_mock_weather g d is_weekend st1).1
  let st2 := (generate_mock_weather g d is_weekend st1).2
  let is_holiday := is_mock_holiday d
  let holiday_name := if is_holiday then get_holiday_name d else none
  (⟨day_of_week, events, weather, is_holiday, holiday_name,
    if is_weekend then "weekend" else if is_friday then "friday" else "weekday"⟩, st2)

/-- Zero-pad a number below 100 to two digits, as `%m`/`%d` do. -/
def natPad2 (n : ℕ) : String :=
  if n < 10 then "0" ++ toString n else toString n

/-- `strftime("%Y-%m-%d")`. -/
def dateISO (d : SDate) : String :=
  toString d.year ++ "-" ++ natPad2 d.month ++ "-" ++ natPad2 d.day

/-- Decimal rendering of a two-decimal rational, matching how the Python
f-string prints the occupancy float constants 0.92 / 0.88 / 0.78. -/
def fmtQ2 (q : ℚ) : String :=
  let n := ⌊q * 100⌋
  toString (n / 100) ++ "." ++ natPad2 (n % 100).toNat

/-- `_build_context_string`: the canonical multi-line embedding input.
`context.get('hotel_occupancy', ...)` and `context.get('guests_in_house', ...)`
always take the default, since `_fetch_external_context` sets neither key. -/
def build_context_string (request : PredictionRequest) (context : Ctx) : String :=
  let sep : String := ", "
  let events_join := String.intercalate sep (context.events.map (fun e => e.etype))
  let events_str := if events_join = "" then "None" else events_join
  let date_str := dateISO request.service_date
  let service_type_str := request.service_type.value
  let day_type := context.day_type
  let hotel_occupancy : ℚ :=
    if day_type = "weekend" ∨ context.is_holiday then 92/100
    else if day_type = "friday" then 88/100
    else 78/100
  let guests_in_house : ℤ :=
    if day_type = "weekend" ∨ context.is_holiday then 240
    else if day_type = "friday" then 200
    else 175
  "Date: " ++ date_str ++ " (" ++ context.day_of_week ++ ")\n" ++
  "Service: " ++ service_type_str ++ "\n" ++
  "Day type: " ++ day_type ++ "\n" ++
  "Hotel occupancy: " ++ fmtQ2 hotel_occupancy ++ "\n" ++
  "Guests in house: " ++ toString guests_in_house ++ "\n" ++
  "Weather: " ++ context.weather.condition ++ sep ++
    toString context.weather.temperature ++ "°C\n" ++
  "Events nearby: " ++ events_str ++ "\n" ++
  "Holiday: " ++ (if context.is_holiday then context.holiday_name.getD ("None") else "None")

/-- Stable descending insertion: place `p` before the first element whose
similarity is strictly smaller.  Together with `sortBySimilarityDesc` this
models `patterns.sort(key=lambda p: p.similarity, reverse=True)` (a stable
descending sort). -/
def insertDesc (p : Pattern) : List Pattern → List Pattern
  | [] => [p]
  | q :: qs => if q.similarity < p.similarity then p :: q :: qs else q :: insertDesc p qs

/-- Stable sort by descending similarity. -/
def sortBySimilarityDesc : List Pattern → List Pattern
  | [] => []
  | p :: ps => insertDesc p (sortBySimilarityDesc ps)

/-- Base cover count of `_generate_mock_patterns` (everything before the
`for i in range(3)` loop): day-type base, event boost, weather adjustment,
holiday override. -/
def mock_base_covers (g : DrawStream) (context : Ctx) (st : RState) : ℤ × RState :=
  let base0 := if context.day_type = "weekend" then pyRandint g 130 160 st
    else if context.day_type = "friday" then pyRandint g 120 145 st
    else pyRandint g 100 130 st
  let base1 := if context.events ≠ [] then base0.1 + (context.events.length : ℤ) * 15 else base0.1
  let base2 := if context.weather.condition = "Rain" then base1 - 10
    else if context.weather.condition = "Heavy Rain" then base1 - 20
    else base1
  if context.is_holiday then
    if context.holiday_name = some ("Christmas Eve") ∨ context.holiday_name = some ("Christmas")
    then pyRandint g 40 70 base0.2
    else if context.holiday_name = some ("New Year's Eve") then pyRandint g 180 220 base0.2
    else if context.holiday_name = some ("New Year's Day") then pyRandint g 50 80 base0.2
    else (base2, base0.2)
  else (base2, base0.2)

/-- The event description string chosen inside the pattern loop of
`_generate_mock_patterns`. -/
def mock_event_desc (context : Ctx) : String :=
  if context.events ≠ [] then (context.events.headD default).etype ++ " nearby"
  else if context.is_holiday then context.holiday_name.getD ("None") ++ " service"
  else if context.weather.condition = "Rain" ∨ context.weather.condition = "Heavy Rain"
    then "Rainy " ++ context.day_of_week
  else "Regular " ++ context.day_type ++ " service"

/-- One iteration of the `for i in range(3)` loop of
`_generate_mock_patterns`: months offset, jitter, similarity draw. -/
def mk_mock_pattern (g : DrawStream) (context : Ctx) (service_date : SDate) (base_covers : ℤ)
    (i : ℕ) (st : RState) : Pattern × RState :=
  let months_ago := (pyRandint g 3 12 st).1
  let st1 := (pyRandint g 3 12 st).2
  let pattern_date := service_date.ordinal - 30 * months_ago
  let pattern_covers := base_covers + (pyRandint g (-10) 10 st1).1
  let st2 := (pyRandint g (-10) 10 st1).2
  let sim := (pyUniform g (85/100) (95/100) st2).1
  let st3 := (pyUniform g (85/100) (95/100) st2).2
  (⟨"mock_00" ++ toString (i + 1), pattern_date, some (mock_event_desc context),
    max 30 pattern_covers, pyRoundTo sim 2,
    ⟨some context.day_of_week, some context.weather.condition, context.events.length,
     if context.is_holiday then context.holiday_name else none, "mock"⟩⟩, st3)

/-- `_generate_mock_patterns`: seeds on `toordinal() + 2000`, builds the
base, generates three patterns and sorts them by descending similarity. -/
def generate_mock_patterns (g : DrawStream) (request : PredictionRequest) (context : Ctx)
    (st0 : RState) : List Pattern × RState :=
  let st := seedR (request.service_date.ordinal + 2000) st0
  let base := (mock_base_covers g context st).1
  let st1 := (mock_base_covers g context st).2
  let p1 := (mk_mock_pattern g context request.service_date base 0 st1).1
  let st2 := (mk_mock_pattern g context request.service_date base 0 st1).2
  let p2 := (mk_mock_pattern g context request.service_date base 1 st2).1
  let st3 := (mk_mock_pattern g context request.service_date base 1 st2).2
  let p3 := (mk_mock_pattern g context request.service_date base 2 st3).1
  let st4 := (mk_mock_pattern g context request.service_date base 2 st3).2
  (sortBySimilarityDesc [p1, p2, p3], st4)

/-- Payload of a Qdrant hit, with the fields `_qdrant_hit_to_pattern`
reads.  The payload date string is carried parsed, as its ordinal; events
are carried as their type descriptors (the code only reads the type of
each event, whether it is stored as a dict or as a plain string). -/
structure HitPayload where
  pattern_id : Option String
  date : ℤ
  actual_covers : ℤ
  events : List String
  is_holiday : Bool
  holiday_name : Option String
  day_type : Option String
  day_of_week : Option String
  weather_condition : Option String
  service_type : String
deriving DecidableEq

/-- A Qdrant search hit: point id, relevance score and payload. -/
structure Hit where
  id : ℕ
  score : ℚ
  payload : HitPayload
deriving DecidableEq

/-- `_qdrant_hit_to_pattern`. -/
def qdrant_hit_to_pattern (hit : Hit) : Pattern :=
  let payload := hit.payload
  let sep : String := ", "
  let event_desc :=
    if payload.events ≠ [] then
      let event_types := payload.events
      if event_types.length = 1 then event_types.headD "" ++ " nearby"
      else String.intercalate sep (event_types.take 2) ++ " nearby" ++
        (if event_types.length > 2
         then " (+" ++ toString (event_types.length - 2) ++ " more)" else "")
    else if payload.is_holiday then payload.holiday_name.getD ("Holiday") ++ " service"
    else "Regular " ++ payload.day_type.getD ("weekday") ++ " service"
  ⟨payload.pattern_id.getD ("pat_" ++ toString hit.id), payload.date, some event_desc,
   payload.actual_covers, pyRoundTo hit.score 2,
   ⟨payload.day_of_week, payload.weather_condition, payload.events.length,
    if payload.is_holiday then payload.holiday_name else none, "qdrant"⟩⟩

/-- Outcome of the embedding + vector-index interaction of
`_find_similar_patterns`, abstracted: `failure` models any exception raised
by `_get_embedding` or `_search_qdrant` (all of which the method catches),
`success hits` a query response. -/
inductive RetrievalOutcome where
  | failure
  | success (hits : List Hit)
deriving DecidableEq

/-- `_find_similar_patterns`: uses Qdrant when both clients are available
and the query succeeds with at least one hit; otherwise falls back to
`_generate_mock_patterns`.  `clients_available` models
`self.qdrant_client and self.mistral_client`. -/
def find_similar_patterns (clients_available : Bool) (outcome : RetrievalOutcome)
    (g : DrawStream) (request : PredictionRequest) (context : Ctx) (st : RState) :
    List Pattern × RState :=
  if clients_available then
    match outcome with
    | .success hits =>
        if hits ≠ [] then (hits.map qdrant_hit_to_pattern, st)
        else generate_mock_patterns g request context st
    | .failure => generate_mock_patterns g request context st
  else generate_mock_patterns g request context st

/-- The `accuracy_metrics` dict.  Optional keys that a branch does not set
are `none`. -/
structure AccuracyMetrics where
  method : String
  estimated_mape : Option ℚ
  prediction_interval : Option (ℤ × ℤ)
  patterns_analyzed : Option ℕ
  note : String
deriving DecidableEq

/-- The dict returned by `_calculate_prediction`. -/
structure PredictionOut where
  predicted_covers : ℤ
  confidence : ℚ
  method : String
  patterns_count : Option ℕ
  accuracy_metrics : AccuracyMetrics
deriving DecidableEq

/-- `sum(p.similarity for p in patterns)`. -/
def total_weight (ps : List Pattern) : ℚ :=
  (ps.map (fun p => p.similarity)).sum

/-- `sum(p.actual_covers * p.similarity for p in patterns)`. -/
def weighted_sum (ps : List Pattern) : ℚ :=
  (ps.map (fun p => (p.actual_covers : ℚ) * p.similarity)).sum

/-- `min` of a nonempty list of covers, as Python's `min(covers)`. -/
def coversMin : List ℤ → ℤ
  | [] => 0
  | c :: cs => cs.foldl min c

/-- `max` of a nonempty list of covers, as Python's `max(covers)`. -/
def coversMax : List ℤ → ℤ
  | [] => 0
  | c :: cs => cs.foldl max c

/-- `mean_covers` in `_estimate_accuracy_metrics`:
`sum(covers) / len(covers)`. -/
def accMean (patterns : List Pattern) : ℚ :=
  (((patterns.map (fun p => p.actual_covers)).sum : ℤ) : ℚ)
    / ((patterns.map (fun p => p.actual_covers)).length : ℚ)

/-- The `deviations` list in `_estimate_accuracy_metrics`:
`[abs(c - mean_covers) / mean_covers * 100 for c in covers]`. -/
def accDevs (patterns : List Pattern) : List ℚ :=
  (patterns.map (fun p => p.actual_covers)).map
    (fun (c : ℤ) => |(c : ℚ) - accMean patterns| / accMean patterns * 100)

/-- `_estimate_accuracy_metrics`. -/
def estimate_accuracy_metrics (patterns : List Pattern) (_predicted_covers : ℤ) :
    AccuracyMetrics :=
  if patterns.length < 2 then
    ⟨"rag_weighted_average", none, none, none, "Insufficient patterns for variance estimation"⟩
  else
    let covers : List ℤ := patterns.map (fun p => p.actual_covers)
    let estimated_mape :=
      if 0 < accMean patterns then
        some (pyRoundTo ((accDevs patterns).sum / ((accDevs patterns).length : ℚ)) 1)
      else none
    let interval :=
      if covers ≠ [] then some (coversMin covers, coversMax covers) else none
    ⟨"rag_weighted_average", estimated_mape, interval, some patterns.length,
     "Estimated from similar pattern variance, not backtested"⟩

/-- `_calculate_prediction`. -/
def calculate_prediction (patterns : List Pattern) : PredictionOut :=
  if patterns = [] then
    ⟨120, 6/10, "fallback", none,
     ⟨"fallback", none, none, none, "No patterns available for estimation"⟩⟩
  else
    let tw := total_weight patterns
    let ws := weighted_sum patterns
    let predicted_covers := pyInt (ws / tw)
    let avg_similarity := tw / (patterns.length : ℚ)
    let confidence := pyRoundTo avg_similarity 2
    ⟨predicted_covers, confidence, "weighted_average", some patterns.length,
     estimate_accuracy_metrics patterns predicted_covers⟩

/-- The estimator formula as the spec's §4.3 words state it:
`predicted_covers = round(Σ(covers_i × similarity_i) / Σ(similarity_i))`
with integer rounding (Python `round`).  Stated from the spec, for
comparison with `calculate_prediction` (which truncates with `int()`). -/
def specPredictedCovers (ps : List Pattern) : ℤ :=
  pyRoundHalfEven (weighted_sum ps / total_weight ps)

/-! Helper lemmas about the Python numeric and PRNG helpers. -/

theorem pyRoundHalfEven_mem (q : ℚ) :
    ⌊q⌋ ≤ pyRoundHalfEven q ∧ pyRoundHalfEven q ≤ ⌈q⌉ := by
  unfold pyRoundHalfEven
  have hfc : ⌊q⌋ ≤ ⌈q⌉ := Int.floor_le_ceil q
  by_cases h1 : q - ⌊q⌋ < 1/2
  · rw [if_pos h1]
    exact ⟨le_refl _, hfc⟩
  · have hfrac : (1:ℚ)/2 ≤ q - ⌊q⌋ := not_lt.mp h1
    have hlt : (⌊q⌋ : ℚ) < q := by linarith
    have hceil : ⌊q⌋ + 1 ≤ ⌈q⌉ := by
      have := Int.lt_ceil.mpr hlt
      omega
    rw [if_neg h1]
    by_cases h2 : 1/2 < q - ⌊q⌋
    · rw [if_pos h2]
      exact ⟨by omega, hceil⟩
    · rw [if_neg h2]
      by_cases h3 : 2 ∣ ⌊q⌋
      · rw [if_pos h3]
        exact ⟨le_refl _, hfc⟩
      · rw [if_neg h3]
        exact ⟨by omega, hceil⟩

theorem pyRoundTo_bounds (m n : ℤ) (q : ℚ) (d : ℕ)
    (hm : (m : ℚ) ≤ q * 10 ^ d) (hn : q * 10 ^ d ≤ (n : ℚ)) :
    (m : ℚ) / 10 ^ d ≤ pyRoundTo q d ∧ pyRoundTo q d ≤ (n : ℚ) / 10 ^ d := by
  obtain ⟨h1, h2⟩ := pyRoundHalfEven_mem (q * 10 ^ d)
  have hm' : m ≤ pyRoundHalfEven (q * 10 ^ d) := le_trans (Int.le_floor.mpr hm) h1
  have hn' : pyRoundHalfEven (q * 10 ^ d) ≤ n := le_trans h2 (Int.ceil_le.mpr hn)
  have hpos : (0:ℚ) < 10 ^ d := by positivity
  unfold pyRoundTo
  constructor
  · apply div_le_div_of_nonneg_right ?_ (le_of_lt hpos)
    exact_mod_cast hm'
  · apply div_le_div_of_nonneg_right ?_ (le_of_lt hpos)
    exact_mod_cast hn'

theorem pyInt_bounds (lo hi : ℤ) (q : ℚ) (hlo : (lo : ℚ) ≤ q) (hhi : q ≤ (hi : ℚ)) :
    lo ≤ pyInt q ∧ pyInt q ≤ hi := by
  unfold pyInt
  by_cases h : 0 ≤ q
  · simp only [h, if_true]
    refine ⟨Int.le_floor.mpr hlo, ?_⟩
    have := Int.floor_le_floor hhi
    simpa using this
  · simp only [h, if_false]
    refine ⟨?_, Int.ceil_le.mpr hhi⟩
    have := Int.ceil_le_ceil hlo
    simpa using this

theorem pyRandint_bounds (g : DrawStream) (hg : UnitStream g) (a b : ℤ) (st : RState)
    (hab : a ≤ b) : a ≤ (pyRandint g a b st).1 ∧ (pyRandint g a b st).1 ≤ b := by
  obtain ⟨h0, h1⟩ := hg st.seed st.idx
  unfold pyRandint
  have hn : (0:ℚ) < (b : ℚ) - (a : ℚ) + 1 := by
    have : (a : ℚ) ≤ (b : ℚ) := by exact_mod_cast hab
    linarith
  have hprod0 : 0 ≤ g st.seed st.idx * ((b : ℚ) - (a : ℚ) + 1) := mul_nonneg h0 (le_of_lt hn)
  have hprodlt : g st.seed st.idx * ((b : ℚ) - (a : ℚ) + 1) < (b : ℚ) - (a : ℚ) + 1 := by
    calc g st.seed st.idx * ((b : ℚ) - (a : ℚ) + 1)
        < 1 * ((b : ℚ) - (a : ℚ) + 1) := mul_lt_mul_of_pos_right h1 hn
      _ = (b : ℚ) - (a : ℚ) + 1 := one_mul _
  constructor
  · have := Int.floor_nonneg.mpr hprod0
    simp only []
    omega
  · have : ⌊g st.seed st.idx * ((b : ℚ) - (a : ℚ) + 1)⌋ < b - a + 1 := by
      apply Int.floor_lt.mpr
      push_cast
      exact hprodlt
    simp only []
    omega

theorem pyUniform_bounds (g : DrawStream) (hg : UnitStream g) (a b : ℚ) (st : RState)
    (hab : a < b) : a ≤ (pyUniform g a b st).1 ∧ (pyUniform g a b st).1 < b := by
  obtain ⟨h0, h1⟩ := hg st.seed st.idx
  unfold pyUniform
  have hd : (0:ℚ) < b - a := by linarith
  constructor
  · have : 0 ≤ g st.seed st.idx * (b - a) := mul_nonneg h0 (le_of_lt hd)
    simp only []
    linarith
  · have : g st.seed st.idx * (b - a) < 1 * (b - a) := mul_lt_mul_of_pos_right h1 hd
    simp only []
    linarith

/-! Helper lemmas about the descending similarity sort. -/

theorem length_insertDesc (p : Pattern) (l : List Pattern) :
    (insertDesc p l).length = l.length + 1 := by
  induction l with
  | nil => rfl
  | cons q qs ih =>
    by_cases h : q.similarity < p.similarity <;> simp [insertDesc, h, ih]

theorem mem_insertDesc (x p : Pattern) (l : List Pattern) :
    x ∈ insertDesc p l ↔ x = p ∨ x ∈ l := by
  induction l with
  | nil => simp [insertDesc]
  | cons q qs ih =>
    by_cases h : q.similarity < p.similarity
    · simp [insertDesc, h, ih]
    · simp only [insertDesc, h, if_false, List.mem_cons, ih]
      tauto

theorem length_sortBySimilarityDesc (l : List Pattern) :
    (sortBySimilarityDesc l).length = l.length := by
  induction l with
  | nil => rfl
  | cons p ps ih => simp [sortBySimilarityDesc, length_insertDesc, ih]

theorem mem_sortBySimilarityDesc (x : Pattern) (l : List Pattern) :
    x ∈ sortBySimilarityDesc l ↔ x ∈ l := by
  induction l with
  | nil => simp [sortBySimilarityDesc]
  | cons p ps ih => simp [sortBySimilarityDesc, mem_insertDesc, ih]

theorem pairwise_insertDesc (p : Pattern) (l : List Pattern)
    (hl : List.Pairwise (fun a b : Pattern => b.similarity ≤ a.similarity) l) :
    List.Pairwise (fun a b : Pattern => b.similarity ≤ a.similarity) (insertDesc p l) := by
  induction l with
  | nil => simp [insertDesc]
  | cons q qs ih =>
    rw [List.pairwise_cons] at hl
    obtain ⟨hq, hqs⟩ := hl
    by_cases h : q.similarity < p.similarity
    · simp only [insertDesc, h, if_true]
      rw [List.pairwise_cons]
      refine ⟨?_, by rw [List.pairwise_cons]; exact ⟨hq, hqs⟩⟩
      intro x hx
      rcases List.mem_cons.mp hx with rfl | hx
      · exact le_of_lt h
      · exact le_trans (hq x hx) (le_of_lt h)
    · simp only [insertDesc, h, if_false]
      rw [List.pairwise_cons]
      refine ⟨?_, ih hqs⟩
      intro x hx
      rcases (mem_insertDesc x p qs).mp hx with rfl | hx
      · exact not_lt.mp h
      · exact hq x hx

theorem sorted_sortBySimilarityDesc (l : List Pattern) :
    List.Pairwise (fun a b : Pattern => b.similarity ≤ a.similarity)
      (sortBySimilarityDesc l) := by
  induction l with
  | nil => simp [sortBySimilarityDesc]
  | cons p ps ih => exact pairwise_insertDesc p _ ih

/-! Helper lemmas about the weighted sums of the estimator. -/

theorem total_weight_cons (p : Pattern) (ps : List Pattern) :
    total_weight (p :: ps) = p.similarity + total_weight ps := by
  simp [total_weight]

theorem weighted_sum_cons (p : Pattern) (ps : List Pattern) :
    weighted_sum (p :: ps) = (p.actual_covers : ℚ) * p.similarity + weighted_sum ps := by
  simp [weighted_sum]

theorem total_weight_nonneg (ps : List Pattern) (h : ∀ p ∈ ps, 0 ≤ p.similarity) :
    0 ≤ total_weight ps := by
  induction ps with
  | nil => simp [total_weight]
  | cons p ps ih =>
    rw [total_weight_cons]
    have h1 := h p (List.mem_cons_self p ps)
    have h2 := ih (fun q hq => h q (List.mem_cons_of_mem p hq))
    linarith

theorem total_weight_le_length (ps : List Pattern) (h : ∀ p ∈ ps, p.similarity ≤ 1) :
    total_weight ps ≤ (ps.length : ℚ) := by
  induction ps with
  | nil => simp [total_weight]
  | cons p ps ih =>
    rw [total_weight_cons]
    have h1 := h p (List.mem_cons_self p ps)
    have h2 := ih (fun q hq => h q (List.mem_cons_of_mem p hq))
    simp only [List.length_cons]
    push_cast
    linarith

theorem weighted_sum_lower (lo : ℤ) (ps : List Pattern)
    (hs : ∀ p ∈ ps, 0 ≤ p.similarity) (hc : ∀ p ∈ ps, lo ≤ p.actual_covers) :
    (lo : ℚ) * total_weight ps ≤ weighted_sum ps := by
  induction ps with
  | nil => simp [total_weight, weighted_sum]
  | cons p ps ih =>
    rw [total_weight_cons, weighted_sum_cons, mul_add]
    have h1 : (lo : ℚ) * p.similarity ≤ (p.actual_covers : ℚ) * p.similarity := by
      apply mul_le_mul_of_nonneg_right ?_ (hs p (List.mem_cons_self p ps))
      exact_mod_cast hc p (List.mem_cons_self p ps)
    have h2 := ih (fun q hq => hs q (List.mem_cons_of_mem p hq))
      (fun q hq => hc q (List.mem_cons_of_mem p hq))
    linarith

theorem weighted_sum_upper (hi : ℤ) (ps : List Pattern)
    (hs : ∀ p ∈ ps, 0 ≤ p.similarity) (hc : ∀ p ∈ ps, p.actual_covers ≤ hi) :
    weighted_sum ps ≤ (hi : ℚ) * total_weight ps := by
  induction ps with
  | nil => simp [total_weight, weighted_sum]
  | cons p ps ih =>
    rw [total_weight_cons, weighted_sum_cons, mul_add]
    have h1 : (p.actual_covers : ℚ) * p.similarity ≤ (hi : ℚ) * p.similarity := by
      apply mul_le_mul_of_nonneg_right ?_ (hs p (List.mem_cons_self p ps))
      exact_mod_cast hc p (List.mem_cons_self p ps)
    have h2 := ih (fun q hq => hs q (List.mem_cons_of_mem p hq))
      (fun q hq => hc q (List.mem_cons_of_mem p hq))
    linarith

theorem weighted_mean_bounds (ps : List Pattern) (lo hi : ℤ)
    (hs : ∀ p ∈ ps, 0 ≤ p.similarity) (htw : 0 < total_weight ps)
    (hlo : ∀ p ∈ ps, lo ≤ p.actual_covers) (hhi : ∀ p ∈ ps, p.actual_covers ≤ hi) :
    (lo : ℚ) ≤ weighted_sum ps / total_weight ps ∧
      weighted_sum ps / total_weight ps ≤ (hi : ℚ) := by
  constructor
  · rw [le_div_iff₀ htw]
    exact weighted_sum_lower lo ps hs hlo
  · rw [div_le_iff₀ htw]
    have := weighted_sum_upper hi ps hs hhi
    linarith

/-! Helper lemmas about `min`/`max` over a covers list. -/

theorem foldl_min_le (cs : List ℤ) (c : ℤ) :
    cs.foldl min c ≤ c ∧ ∀ x ∈ cs, cs.foldl min c ≤ x := by
  induction cs generalizing c with
  | nil => simp
  | cons d ds ih =>
    refine ⟨le_trans (ih (min c d)).1 (min_le_left c d), ?_⟩
    intro x hx
    rcases List.mem_cons.mp hx with rfl | hx
    · exact le_trans (ih (min c x)).1 (min_le_right c x)
    · exact (ih (min c d)).2 x hx

theorem foldl_min_mem (cs : List ℤ) (c : ℤ) :
    cs.foldl min c = c ∨ cs.foldl min c ∈ cs := by
  induction cs generalizing c with
  | nil => exact Or.inl rfl
  | cons d ds ih =>
    rcases ih (min c d) with h | h
    · rcases min_choice c d with hm | hm
      · exact Or.inl (by rw [List.foldl_cons, h]; exact hm)
      · refine Or.inr (List.mem_cons.mpr (Or.inl ?_))
        rw [List.foldl_cons, h]
        exact hm
    · exact Or.inr (List.mem_cons.mpr (Or.inr (by simpa using h)))

theorem foldl_max_ge (cs : List ℤ) (c : ℤ) :
    c ≤ cs.foldl max c ∧ ∀ x ∈ cs, x ≤ cs.foldl max c := by
  induction cs generalizing c with
  | nil => simp
  | cons d ds ih =>
    refine ⟨le_trans (le_max_left c d) (ih (max c d)).1, ?_⟩
    intro x hx
    rcases List.mem_cons.mp hx with rfl | hx
    · exact le_trans (le_max_right c x) (ih (max c x)).1
    · exact (ih (max c d)).2 x hx

theorem foldl_max_mem (cs : List ℤ) (c : ℤ) :
    cs.foldl max c = c ∨ cs.foldl max c ∈ cs := by
  induction cs generalizing c with
  | nil => exact Or.inl rfl
  | cons d ds ih =>
    rcases ih (max c d) with h | h
    · rcases max_choice c d with hm | hm
      · exact Or.inl (by rw [List.foldl_cons, h]; exact hm)
      · refine Or.inr (List.mem_cons.mpr (Or.inl ?_))
        rw [List.foldl_cons, h]
        exact hm
    · exact Or.inr (List.mem_cons.mpr (Or.inr (by simpa using h)))

theorem coversMin_le (l : List ℤ) (x : ℤ) (hx : x ∈ l) : coversMin l ≤ x := by
  cases l with
  | nil => cases hx
  | cons c cs =>
    rcases List.mem_cons.mp hx with rfl | hx
    · exact (foldl_min_le cs x).1
    · exact (foldl_min_le cs c).2 x hx

theorem coversMin_mem (l : List ℤ) (hl : l ≠ []) : coversMin l ∈ l := by
  cases l with
  | nil => exact absurd rfl hl
  | cons c cs =>
    rcases foldl_min_mem cs c with h | h
    · exact List.mem_cons.mpr (Or.inl (by simpa [coversMin] using h))
    · exact List.mem_cons.mpr (Or.inr (by simpa [coversMin] using h))

theorem coversMax_ge (l : List ℤ) (x : ℤ) (hx : x ∈ l) : x ≤ coversMax l := by
  cases l with
  | nil => cases hx
  | cons c cs =>
    rcases List.mem_cons.mp hx with rfl | hx
    · exact (foldl_max_ge cs x).1
    · exact (foldl_max_ge cs c).2 x hx

theorem coversMax_mem (l : List ℤ) (hl : l ≠ []) : coversMax l ∈ l := by
  cases l with
  | nil => exact absurd rfl hl
  | cons c cs =>
    rcases foldl_max_mem cs c with h | h
    · exact List.mem_cons.mpr (Or.inl (by simpa [coversMax] using h))
    · exact List.mem_cons.mpr (Or.inr (by simpa [coversMax] using h))

theorem total_weight_pos (ps : List Pattern) (hval : ∀ p ∈ ps, 0 ≤ p.similarity)
    (hpos : ∃ p ∈ ps, 0 < p.similarity) : 0 < total_weight ps := by
  induction ps with
  | nil =>
    obtain ⟨p, hp, _⟩ := hpos
    cases hp
  | cons q qs ih =>
    rw [total_weight_cons]
    have hq0 := hval q (List.mem_cons_self q qs)
    have hqs0 := total_weight_nonneg qs (fun r hr => hval r (List.mem_cons_of_mem q hr))
    obtain ⟨p, hp, hppos⟩ := hpos
    rcases List.mem_cons.mp hp with rfl | hp'
    · linarith
    · have := ih (fun r hr => hval r (List.mem_cons_of_mem q hr)) ⟨p, hp', hppos⟩
      linarith

/-! Concrete fixtures used in counterexamples and witnesses.  Dates carry
real calendar values (weekday and ordinal as Python computes them). -/

/-- The all-zero draw stream (every draw is 0, which lies in [0, 1)). -/
def gZero : DrawStream := fun _ _ => 0

theorem gZero_unit : UnitStream gZero := by
  intro s i
  constructor <;> norm_num [gZero]

/-- 2024-12-25, a Wednesday, ordinal 739245. -/
def dec25_2024 : SDate := ⟨2024, 12, 25, 2, 739245⟩

/-- 2024-12-31, a Tuesday, ordinal 739251. -/
def dec31_2024 : SDate := ⟨2024, 12, 31, 1, 739251⟩

/-- 2025-01-01, a Wednesday, ordinal 739252. -/
def jan1_2025 : SDate := ⟨2025, 1, 1, 2, 739252⟩

/-- 2024-06-10, a Monday, ordinal 739047. -/
def jun10_2024 : SDate := ⟨2024, 6, 10, 0, 739047⟩

/-- A well-formed request for a plain weekday dinner. -/
def reqJun10 : PredictionRequest := ⟨"r1", jun10_2024, .dinner⟩

/-- A request for Christmas Day dinner. -/
def reqDec25 : PredictionRequest := ⟨"r1", dec25_2024, .dinner⟩

/-- A plain weekday context with no events, clear weather, no holiday. -/
def ctxPlain : Ctx := ⟨"Monday", [], ⟨"Clear", 15, 0, 10⟩, false, none, "weekday"⟩

/-- Initial PRNG state used in witnesses. -/
def st0 : RState := ⟨0, 0⟩

/-- Index-style metadata used on hand-built schema-valid patterns. -/
def metaQdrant : PatternMeta := ⟨none, none, 0, none, "qdrant"⟩

/-- covers 100, similarity 1.0. -/
def tiePatA : Pattern := ⟨"a", 0, none, 100, 1, metaQdrant⟩

/-- covers 103, similarity 1.0. -/
def tiePatB : Pattern := ⟨"b", 0, none, 103, 1, metaQdrant⟩

/-- covers 100, similarity 0.9 (first pattern of the spec's example). -/
def exPat100 : Pattern := ⟨"p1", 0, none, 100, 9/10, metaQdrant⟩

/-- covers 120, similarity 0.8 (second pattern of the spec's example). -/
def exPat120 : Pattern := ⟨"p2", 0, none, 120, 8/10, metaQdrant⟩

/-- covers 100, similarity 0.0 — schema-valid (`ge=0.0` admits 0). -/
def zeroSimPat : Pattern := ⟨"z", 0, none, 100, 0, metaQdrant⟩

/-- covers 0, similarity 0.9 — schema-valid (`actual_covers` is a plain int). -/
def zeroCoverPat : Pattern := ⟨"zc", 0, none, 0, 9/10, metaQdrant⟩

/-! Claim theorems. -/

/-- C2: with an empty pattern list `_calculate_prediction` returns exactly
predicted_covers = 120, confidence = 0.60, method = "fallback", and an
accuracy_metrics object with estimated_mape None and the
no-data-available note. -/
theorem estimator_empty_fallback_exact :
    calculate_prediction [] =
      ⟨120, 6/10, "fallback", none,
       ⟨"fallback", none, none, none, "No patterns available for estimation"⟩⟩ := by
  rfl

/-- C8: the Context Builder is deterministic — for a fixed draw stream the
resulting context and context string depend only on the request (date and
service type), not on the incoming PRNG state, because event and weather
synthesis reseed from the date's ordinal (+1000 for weather). -/
theorem context_builder_deterministic (g : DrawStream) (request : PredictionRequest)
    (st1 st2 : RState) :
    (fetch_external_context g request st1).1 = (fetch_external_context g request st2).1 ∧
    build_context_string request (fetch_external_context g request st1).1 =
      build_context_string request (fetch_external_context g request st2).1 := by
  have h : (fetch_external_context g request st1).1 =
      (fetch_external_context g request st2).1 := rfl
  exact ⟨h, by rw [h]⟩

/-- C1 counterexample: on covers [100, 103] with similarities [1.0, 1.0]
the weighted mean is 101.5; the code's `int()` truncation yields 101 while
the claimed `round(...)` yields 102, so the claimed rounding rule does not
hold for every non-empty pattern list. -/
theorem estimator_rounding_counterexample :
    (calculate_prediction [tiePatA, tiePatB]).predicted_covers = 101 ∧
    specPredictedCovers [tiePatA, tiePatB] = 102 := by
  have htw : total_weight [tiePatA, tiePatB] = 2 := by
    simp [total_weight, tiePatA, tiePatB]
    norm_num
  have hws : weighted_sum [tiePatA, tiePatB] = 203 := by
    simp [weighted_sum, tiePatA, tiePatB]
    norm_num
  have hfloor : ⌊(203 : ℚ) / 2⌋ = 101 := by norm_num
  constructor
  · unfold calculate_prediction
    rw [if_neg (by simp)]
    simp only [htw, hws]
    unfold pyInt
    rw [if_pos (by norm_num)]
    exact hfloor
  · unfold specPredictedCovers
    rw [htw, hws]
    unfold pyRoundHalfEven
    rw [hfloor]
    norm_num

/-- C1 (amended): for every non-empty pattern list with positive total
similarity weight (all-zero similarities instead raise ZeroDivisionError,
see the C3 claim), the estimator returns predicted_covers equal to the
`int()`-truncation (toward zero) of the similarity-weighted mean — not
`round` — and confidence equal to round(mean similarity, 2); on the spec's
example (covers [100, 120], similarities [0.9, 0.8]) this yields 109 and
0.85. -/
theorem estimator_weighted_average_amended :
    (∀ ps : List Pattern, ps ≠ [] → 0 < total_weight ps →
      (calculate_prediction ps).predicted_covers =
        pyInt (weighted_sum ps / total_weight ps) ∧
      (calculate_prediction ps).confidence =
        pyRoundTo (total_weight ps / (ps.length : ℚ)) 2) ∧
    (calculate_prediction [exPat100, exPat120]).predicted_covers = 109 ∧
    (calculate_prediction [exPat100, exPat120]).confidence = 85/100 := by
  have htw : total_weight [exPat100, exPat120] = 17/10 := by
    simp [total_weight, exPat100, exPat120]
    norm_num
  have htwpos : 0 < total_weight [exPat100, exPat120] := by
    rw [htw]
    norm_num
  have hmain : ∀ ps : List Pattern, ps ≠ [] → 0 < total_weight ps →
      (calculate_prediction ps).predicted_covers =
        pyInt (weighted_sum ps / total_weight ps) ∧
      (calculate_prediction ps).confidence =
        pyRoundTo (total_weight ps / (ps.length : ℚ)) 2 := by
    intro ps hne _htw
    unfold calculate_prediction
    rw [if_neg hne]
    exact ⟨rfl, rfl⟩
  refine ⟨hmain, ?_, ?_⟩
  · have hws : weighted_sum [exPat100, exPat120] = 186 := by
      simp [weighted_sum, exPat100, exPat120]
      norm_num
    rw [(hmain [exPat100, exPat120] (by simp) htwpos).1, htw, hws]
    unfold pyInt
    rw [if_pos (by norm_num)]
    norm_num
  · rw [(hmain [exPat100, exPat120] (by simp) htwpos).2, htw]
    unfold pyRoundTo
    have h85 : ((17 : ℚ)/10 / (([exPat100, exPat120] : List Pattern).length : ℚ)) * 10 ^ 2
        = 85 := by
      simp
      norm_num
    rw [h85]
    unfold pyRoundHalfEven
    norm_num

/-- C1 amended witness at the spec's example list, discharging both the
non-emptiness and the positive-total-weight hypotheses there. -/
theorem estimator_weighted_average_amended_witness :
    (calculate_prediction [exPat100, exPat120]).predicted_covers =
      pyInt (weighted_sum [exPat100, exPat120] / total_weight [exPat100, exPat120]) ∧
    (calculate_prediction [exPat100, exPat120]).confidence =
      pyRoundTo (total_weight [exPat100, exPat120]
        / (([exPat100, exPat120] : List Pattern).length : ℚ)) 2 :=
  estimator_weighted_average_amended.1 [exPat100, exPat120] (by simp)
    (by
      have htw : total_weight [exPat100, exPat120] = 17/10 := by
        simp [total_weight, exPat100, exPat120]
        norm_num
      rw [htw]
      norm_num)

/-- C3 counterexample: the pattern schema admits similarity 0.0, so a
non-empty pattern list can have total similarity weight 0 and the division
in the weighted-average branch is then a division by zero — the empty-list
check alone does not prevent it. -/
theorem division_safety_counterexample :
    ¬ (∀ ps : List Pattern, ps ≠ [] → (∀ p ∈ ps, p.schemaValid) →
        total_weight ps ≠ 0) := by
  intro h
  refine h [zeroSimPat] (by simp) ?_ ?_
  · intro p hp
    rw [List.mem_singleton] at hp
    subst hp
    constructor <;> norm_num [zeroSimPat]
  · simp [total_weight, zeroSimPat]

/-- C3 (amended): the divisor of the weighted-average branch is nonzero
exactly when some pattern carries positive similarity; with schema-valid
(nonnegative) similarities, one positive similarity makes the total weight
positive, hence the division safe. -/
theorem division_safety_amended (ps : List Pattern)
    (hval : ∀ p ∈ ps, 0 ≤ p.similarity) (hpos : ∃ p ∈ ps, 0 < p.similarity) :
    0 < total_weight ps ∧ total_weight ps ≠ 0 := by
  have h := total_weight_pos ps hval hpos
  exact ⟨h, ne_of_gt h⟩

/-- C3 amended witness on a singleton list with similarity 0.9. -/
theorem division_safety_amended_witness :
    0 < total_weight [exPat100] ∧ total_weight [exPat100] ≠ 0 :=
  division_safety_amended [exPat100]
    (by
      intro p hp
      rw [List.mem_singleton] at hp
      subst hp
      norm_num [exPat100])
    ⟨exPat100, by simp, by norm_num [exPat100]⟩

theorem list_sum_const (l : List ℤ) (c : ℤ) (h : ∀ x ∈ l, x = c) :
    l.sum = l.length * c := by
  induction l with
  | nil => simp
  | cons d ds ih =>
    have hd := h d (List.mem_cons_self d ds)
    have hds := ih (fun x hx => h x (List.mem_cons_of_mem d hx))
    simp [hd, hds]
    ring

theorem accMean_const (ps : List Pattern) (c : ℤ) (hne : ps ≠ [])
    (hsame : ∀ p ∈ ps, p.actual_covers = c) : accMean ps = (c : ℚ) := by
  unfold accMean
  have hsum : (ps.map (fun p => p.actual_covers)).sum =
      ((ps.map (fun p => p.actual_covers)).length : ℤ) * c := by
    apply list_sum_const
    intro x hx
    obtain ⟨p, hp, rfl⟩ := List.mem_map.mp hx
    exact hsame p hp
  have hlq : ((ps.map (fun p => p.actual_covers)).length : ℚ) ≠ 0 := by
    have h0 : ps.map (fun p => p.actual_covers) ≠ [] := by
      simpa [List.map_eq_nil_iff] using hne
    have hpos := List.length_pos.mpr h0
    exact_mod_cast Nat.pos_iff_ne_zero.mp hpos
  rw [hsum]
  push_cast
  rw [mul_comm, mul_div_assoc, div_self hlq, mul_one]

theorem accDevs_const_sum (ps : List Pattern) (c : ℤ) (hne : ps ≠ [])
    (hsame : ∀ p ∈ ps, p.actual_covers = c) : (accDevs ps).sum = 0 := by
  apply List.sum_eq_zero
  intro x hx
  unfold accDevs at hx
  obtain ⟨y, hy, rfl⟩ := List.mem_map.mp hx
  obtain ⟨p, hp, rfl⟩ := List.mem_map.mp hy
  rw [hsame p hp, accMean_const ps c hne hsame]
  simp

/-- covers 0, similarity 0.9 — for the identical-zero-covers refutation. -/
def zcA : Pattern := ⟨"zc1", 0, none, 0, 9/10, metaQdrant⟩

/-- covers 0, similarity 0.8 — for the identical-zero-covers refutation. -/
def zcB : Pattern := ⟨"zc2", 0, none, 0, 8/10, metaQdrant⟩

/-- C7 counterexample: two schema-valid patterns with identical
actual_covers = 0 give pattern-set mean 0, so the `mean_covers > 0` guard
makes estimated_mape None rather than the claimed 0.0. -/
theorem accuracy_proxy_counterexample :
    (estimate_accuracy_metrics [zcA, zcB] 0).estimated_mape = none ∧
    (estimate_accuracy_metrics [zcA, zcB] 0).estimated_mape ≠ some 0 := by
  have h : (estimate_accuracy_metrics [zcA, zcB] 0).estimated_mape = none := by
    have hmape : (estimate_accuracy_metrics [zcA, zcB] 0).estimated_mape =
        if 0 < accMean [zcA, zcB] then
          some (pyRoundTo ((accDevs [zcA, zcB]).sum / ((accDevs [zcA, zcB]).length : ℚ)) 1)
        else none := by
      unfold estimate_accuracy_metrics
      rw [if_neg (by simp)]
    have hmean : accMean [zcA, zcB] = 0 := by
      unfold accMean
      simp [zcA, zcB]
    rw [hmape, hmean]
    norm_num
  refine ⟨h, ?_⟩
  rw [h]
  simp

/-- C7 (amended): with fewer than 2 patterns the accuracy proxy returns
estimated_mape None with the explanatory note; with ≥2 patterns of
identical positive actual_covers it returns estimated_mape 0.0 (identical
non-positive covers yield None instead); and with ≥2 patterns the
prediction_interval is exactly the (min, max) range of actual_covers. -/
theorem accuracy_proxy_amended :
    (∀ ps : List Pattern, ∀ pc : ℤ, ps.length < 2 →
      estimate_accuracy_metrics ps pc =
        ⟨"rag_weighted_average", none, none, none,
         "Insufficient patterns for variance estimation"⟩) ∧
    (∀ ps : List Pattern, ∀ pc c : ℤ, 2 ≤ ps.length → 0 < c →
      (∀ p ∈ ps, p.actual_covers = c) →
      (estimate_accuracy_metrics ps pc).estimated_mape = some 0) ∧
    (∀ ps : List Pattern, ∀ pc : ℤ, 2 ≤ ps.length →
      ∃ mn mx, (estimate_accuracy_metrics ps pc).prediction_interval = some (mn, mx) ∧
        (∀ p ∈ ps, mn ≤ p.actual_covers ∧ p.actual_covers ≤ mx) ∧
        (∃ p ∈ ps, p.actual_covers = mn) ∧ (∃ p ∈ ps, p.actual_covers = mx)) := by
  refine ⟨?_, ?_, ?_⟩
  · intro ps pc h
    unfold estimate_accuracy_metrics
    rw [if_pos h]
  · intro ps pc c hlen hc hsame
    have hne : ¬ ps.length < 2 := by omega
    have hps : ps ≠ [] := by
      intro h
      subst h
      simp at hlen
    have hmape : (estimate_accuracy_metrics ps pc).estimated_mape =
        if 0 < accMean ps then
          some (pyRoundTo ((accDevs ps).sum / ((accDevs ps).length : ℚ)) 1)
        else none := by
      unfold estimate_accuracy_metrics
      rw [if_neg hne]
    have hcq : (0 : ℚ) < (c : ℚ) := by exact_mod_cast hc
    rw [hmape, accMean_const ps c hps hsame, if_pos hcq,
      accDevs_const_sum ps c hps hsame, zero_div]
    unfold pyRoundTo pyRoundHalfEven
    norm_num
  · intro ps pc hlen
    have hne : ¬ ps.length < 2 := by omega
    have hps : ps ≠ [] := by
      intro h
      subst h
      simp at hlen
    have hcovne : ps.map (fun p => p.actual_covers) ≠ [] := by
      simpa [List.map_eq_nil_iff] using hps
    refine ⟨coversMin (ps.map (fun p => p.actual_covers)),
            coversMax (ps.map (fun p => p.actual_covers)), ?_, ?_, ?_, ?_⟩
    · have hint : (estimate_accuracy_metrics ps pc).prediction_interval =
          if ps.map (fun p => p.actual_covers) ≠ [] then
            some (coversMin (ps.map (fun p => p.actual_covers)),
                  coversMax (ps.map (fun p => p.actual_covers)))
          else none := by
        unfold estimate_accuracy_metrics
        rw [if_neg hne]
      rw [hint, if_pos hcovne]
    · intro p hp
      have hmem : p.actual_covers ∈ ps.map (fun p => p.actual_covers) :=
        List.mem_map.mpr ⟨p, hp, rfl⟩
      exact ⟨coversMin_le _ _ hmem, coversMax_ge _ _ hmem⟩
    · have := coversMin_mem _ hcovne
      obtain ⟨p, hp, hpc⟩ := List.mem_map.mp this
      exact ⟨p, hp, hpc⟩
    · have := coversMax_mem _ hcovne
      obtain ⟨p, hp, hpc⟩ := List.mem_map.mp this
      exact ⟨p, hp, hpc⟩

/-- C7 amended witness: the <2-pattern branch at the empty list. -/
theorem accuracy_proxy_amended_witness :
    estimate_accuracy_metrics [] 0 =
      ⟨"rag_weighted_average", none, none, none,
       "Insufficient patterns for variance estimation"⟩ :=
  accuracy_proxy_amended.1 [] 0 (by simp)

/-- C9 counterexample: the schema constrains only similarity, so a
retrievable pattern may carry actual_covers = 0; a list of such patterns
reaches the weighted-average branch and yields predicted_covers = 0,
which is not a positive integer. -/
theorem pipeline_output_counterexample :
    zeroCoverPat.schemaValid ∧
    (calculate_prediction [zeroCoverPat]).predicted_covers = 0 := by
  constructor
  · constructor <;> norm_num [zeroCoverPat]
  · have htw : total_weight [zeroCoverPat] = 9/10 := by
      simp [total_weight, zeroCoverPat]
    have hws : weighted_sum [zeroCoverPat] = 0 := by
      simp [weighted_sum, zeroCoverPat]
    unfold calculate_prediction
    rw [if_neg (by simp)]
    simp only [htw, hws]
    unfold pyInt
    rw [if_pos (by norm_num)]
    norm_num

/-- C9 (amended): for every non-empty schema-valid pattern list whose
total similarity weight is positive, the returned confidence lies in
[0, 1], and the returned predicted_covers is positive whenever every
pattern's actual_covers is positive (as every generator-produced pattern's
is, covers ≥ 30). -/
theorem pipeline_output_amended (ps : List Pattern) (hne : ps ≠ [])
    (hval : ∀ p ∈ ps, p.schemaValid) (htw : 0 < total_weight ps) :
    (0 ≤ (calculate_prediction ps).confidence ∧
      (calculate_prediction ps).confidence ≤ 1) ∧
    ((∀ p ∈ ps, 0 < p.actual_covers) →
      0 < (calculate_prediction ps).predicted_covers) := by
  have hconf : (calculate_prediction ps).confidence =
      pyRoundTo (total_weight ps / (ps.length : ℚ)) 2 := by
    unfold calculate_prediction
    rw [if_neg hne]
  have hpred : (calculate_prediction ps).predicted_covers =
      pyInt (weighted_sum ps / total_weight ps) := by
    unfold calculate_prediction
    rw [if_neg hne]
  have hlen : (0 : ℚ) < (ps.length : ℚ) := by
    have : 0 < ps.length := List.length_pos.mpr hne
    exact_mod_cast this
  have havg0 : 0 ≤ total_weight ps / (ps.length : ℚ) :=
    le_of_lt (div_pos htw hlen)
  have havg1 : total_weight ps / (ps.length : ℚ) ≤ 1 := by
    rw [div_le_one hlen]
    exact total_weight_le_length ps (fun p hp => (hval p hp).2)
  constructor
  · obtain ⟨h1, h2⟩ := pyRoundTo_bounds 0 100 (total_weight ps / (ps.length : ℚ)) 2
      (by positivity) (by nlinarith)
    rw [hconf]
    norm_num at h1 h2
    exact ⟨h1, h2⟩
  · intro hcov
    have hone : (1 : ℚ) ≤ weighted_sum ps / total_weight ps := by
      rw [le_div_iff₀ htw]
      have := weighted_sum_lower 1 ps (fun p hp => (hval p hp).1)
        (fun p hp => by have := hcov p hp; omega)
      push_cast at this ⊢
      linarith
    rw [hpred]
    unfold pyInt
    rw [if_pos (by linarith)]
    have : (1 : ℤ) ≤ ⌊weighted_sum ps / total_weight ps⌋ := by
      apply Int.le_floor.mpr
      push_cast
      exact hone
    omega

/-- C9 amended witness at the spec's example list. -/
theorem pipeline_output_amended_witness :
    (0 ≤ (calculate_prediction [exPat100, exPat120]).confidence ∧
      (calculate_prediction [exPat100, exPat120]).confidence ≤ 1) ∧
    ((∀ p ∈ [exPat100, exPat120], 0 < p.actual_covers) →
      0 < (calculate_prediction [exPat100, exPat120]).predicted_covers) :=
  pipeline_output_amended [exPat100, exPat120] (by simp)
    (by
      intro p hp
      rcases List.mem_cons.mp hp with rfl | hp'
      · constructor <;> norm_num [exPat100]
      · rw [List.mem_singleton] at hp'
        subst hp'
        constructor <;> norm_num [exPat120])
    (by
      have : total_weight [exPat100, exPat120] = 17/10 := by
        simp [total_weight, exPat100, exPat120]
        norm_num
      rw [this]
      norm_num)

/-- C10: for every non-empty pattern list with nonnegative similarities
and positive total weight, predicted_covers lies between the minimum and
the maximum of the patterns' actual_covers, and with ≥2 patterns it lies
inside the reported prediction_interval, which is exactly that (min, max)
range. -/
theorem prediction_within_interval (ps : List Pattern) (hne : ps ≠ [])
    (hsim : ∀ p ∈ ps, 0 ≤ p.similarity) (htw : 0 < total_weight ps) :
    (∃ p ∈ ps, p.actual_covers ≤ (calculate_prediction ps).predicted_covers) ∧
    (∃ p ∈ ps, (calculate_prediction ps).predicted_covers ≤ p.actual_covers) ∧
    (2 ≤ ps.length →
      ∃ mn mx,
        (calculate_prediction ps).accuracy_metrics.prediction_interval = some (mn, mx) ∧
        mn ≤ (calculate_prediction ps).predicted_covers ∧
        (calculate_prediction ps).predicted_covers ≤ mx) := by
  have hpred : (calculate_prediction ps).predicted_covers =
      pyInt (weighted_sum ps / total_weight ps) := by
    unfold calculate_prediction
    rw [if_neg hne]
  have hcovne : ps.map (fun p => p.actual_covers) ≠ [] := by
    simpa [List.map_eq_nil_iff] using hne
  have hlo : ∀ p ∈ ps, coversMin (ps.map (fun p => p.actual_covers)) ≤ p.actual_covers :=
    fun p hp => coversMin_le _ _ (List.mem_map.mpr ⟨p, hp, rfl⟩)
  have hhi : ∀ p ∈ ps, p.actual_covers ≤ coversMax (ps.map (fun p => p.actual_covers)) :=
    fun p hp => coversMax_ge _ _ (List.mem_map.mpr ⟨p, hp, rfl⟩)
  obtain ⟨hm1, hm2⟩ := weighted_mean_bounds ps
    (coversMin (ps.map (fun p => p.actual_covers)))
    (coversMax (ps.map (fun p => p.actual_covers))) hsim htw hlo hhi
  obtain ⟨hb1, hb2⟩ := pyInt_bounds _ _ _ hm1 hm2
  rw [← hpred] at hb1 hb2
  refine ⟨?_, ?_, ?_⟩
  · obtain ⟨p, hp, hpc⟩ := List.mem_map.mp (coversMin_mem _ hcovne)
    exact ⟨p, hp, by rw [hpc]; exact hb1⟩
  · obtain ⟨p, hp, hpc⟩ := List.mem_map.mp (coversMax_mem _ hcovne)
    exact ⟨p, hp, by rw [hpc]; exact hb2⟩
  · intro hlen
    have hmetrics : (calculate_prediction ps).accuracy_metrics =
        estimate_accuracy_metrics ps (calculate_prediction ps).predicted_covers := by
      unfold calculate_prediction
      rw [if_neg hne]
    refine ⟨coversMin (ps.map (fun p => p.actual_covers)),
            coversMax (ps.map (fun p => p.actual_covers)), ?_, hb1, hb2⟩
    rw [hmetrics]
    have hint : (estimate_accuracy_metrics ps
          (calculate_prediction ps).predicted_covers).prediction_interval =
        if ps.map (fun p => p.actual_covers) ≠ [] then
          some (coversMin (ps.map (fun p => p.actual_covers)),
                coversMax (ps.map (fun p => p.actual_covers)))
        else none := by
      unfold estimate_accuracy_metrics
      rw [if_neg (by omega)]
    rw [hint, if_pos hcovne]

/-! Helper lemmas for the retrieval fallback claims. -/

/-- On any retrieval failure — clients unavailable, an exception, or zero
hits — `_find_similar_patterns` returns the synthetic generator's result. -/
theorem find_similar_patterns_fallback (avail : Bool) (outcome : RetrievalOutcome)
    (g : DrawStream) (request : PredictionRequest) (context : Ctx) (st : RState)
    (hfail : avail = false ∨ outcome = .failure ∨ outcome = .success []) :
    find_similar_patterns avail outcome g request context st =
      generate_mock_patterns g request context st := by
  rcases hfail with rfl | rfl | rfl
  · rfl
  · cases avail <;> rfl
  · cases avail <;> rfl

/-- The three patterns built by the `for i in range(3)` loop of
`_generate_mock_patterns`, before sorting, starting from the post-seeding
PRNG state. -/
def mock_pattern_list (g : DrawStream) (request : PredictionRequest) (context : Ctx)
    (st : RState) : List Pattern :=
  let base := (mock_base_covers g context st).1
  let st1 := (mock_base_covers g context st).2
  let p1 := (mk_mock_pattern g context request.service_date base 0 st1).1
  let st2 := (mk_mock_pattern g context request.service_date base 0 st1).2
  let p2 := (mk_mock_pattern g context request.service_date base 1 st2).1
  let st3 := (mk_mock_pattern g context request.service_date base 1 st2).2
  let p3 := (mk_mock_pattern g context request.service_date base 2 st3).1
  [p1, p2, p3]

theorem generate_mock_patterns_eq (g : DrawStream) (request : PredictionRequest)
    (context : Ctx) (st : RState) :
    (generate_mock_patterns g request context st).1 =
      sortBySimilarityDesc (mock_pattern_list g request context
        (seedR (request.service_date.ordinal + 2000) st)) := rfl

theorem length_generate_mock_patterns (g : DrawStream) (request : PredictionRequest)
    (context : Ctx) (st : RState) :
    (generate_mock_patterns g request context st).1.length = 3 := by
  rw [generate_mock_patterns_eq, length_sortBySimilarityDesc]
  rfl

theorem generate_mock_patterns_source (g : DrawStream) (request : PredictionRequest)
    (context : Ctx) (st : RState) :
    ∀ p ∈ (generate_mock_patterns g request context st).1, p.metadata.source = "mock" := by
  intro p hp
  rw [generate_mock_patterns_eq, mem_sortBySimilarityDesc] at hp
  simp only [mock_pattern_list, List.mem_cons, List.not_mem_nil, or_false] at hp
  rcases hp with rfl | rfl | rfl <;> rfl

/-- Shape of one generated mock pattern: provenance tag "mock", similarity
round(uniform(0.85, 0.95), 2) ∈ [0.85, 0.95], date offset 30·randint(3, 12)
days into the past, covers = base + randint(-10, 10) floored at 30. -/
theorem mk_mock_pattern_spec (g : DrawStream) (hg : UnitStream g) (context : Ctx)
    (d : SDate) (base : ℤ) (i : ℕ) (st : RState) :
    ((mk_mock_pattern g context d base i st).1).metadata.source = "mock" ∧
    (85/100 : ℚ) ≤ ((mk_mock_pattern g context d base i st).1).similarity ∧
    ((mk_mock_pattern g context d base i st).1).similarity ≤ 95/100 ∧
    (∃ m : ℤ, 3 ≤ m ∧ m ≤ 12 ∧
      ((mk_mock_pattern g context d base i st).1).date = d.ordinal - 30 * m) ∧
    (∃ j : ℤ, -10 ≤ j ∧ j ≤ 10 ∧
      ((mk_mock_pattern g context d base i st).1).actual_covers = max 30 (base + j)) := by
  have hdate : ((mk_mock_pattern g context d base i st).1).date =
      d.ordinal - 30 * (pyRandint g 3 12 st).1 := rfl
  have hcov : ((mk_mock_pattern g context d base i st).1).actual_covers =
      max 30 (base + (pyRandint g (-10) 10 (pyRandint g 3 12 st).2).1) := rfl
  have hsimv : ((mk_mock_pattern g context d base i st).1).similarity =
      pyRoundTo (pyUniform g (85/100) (95/100)
        (pyRandint g (-10) 10 (pyRandint g 3 12 st).2).2).1 2 := rfl
  obtain ⟨hu1, hu2⟩ := pyUniform_bounds g hg (85/100) (95/100)
    (pyRandint g (-10) 10 (pyRandint g 3 12 st).2).2 (by norm_num)
  have hm' : ((85 : ℤ) : ℚ) ≤ (pyUniform g (85/100) (95/100)
      (pyRandint g (-10) 10 (pyRandint g 3 12 st).2).2).1 * 10 ^ 2 := by
    push_cast
    norm_num
    linarith
  have hn' : (pyUniform g (85/100) (95/100)
      (pyRandint g (-10) 10 (pyRandint g 3 12 st).2).2).1 * 10 ^ 2 ≤ ((95 : ℤ) : ℚ) := by
    push_cast
    norm_num
    linarith
  obtain ⟨hr1, hr2⟩ := pyRoundTo_bounds 85 95 _ 2 hm' hn'
  obtain ⟨hmo1, hmo2⟩ := pyRandint_bounds g hg 3 12 st (by norm_num)
  obtain ⟨hj1, hj2⟩ := pyRandint_bounds g hg (-10) 10 (pyRandint g 3 12 st).2 (by norm_num)
  refine ⟨rfl, ?_, ?_, ⟨(pyRandint g 3 12 st).1, hmo1, hmo2, hdate⟩,
    ⟨(pyRandint g (-10) 10 (pyRandint g 3 12 st).2).1, hj1, hj2, hcov⟩⟩
  · rw [hsimv]
    have : ((85 : ℤ) : ℚ) / 10 ^ 2 = 85/100 := by norm_num
    rw [← this]
    exact hr1
  · rw [hsimv]
    have : ((95 : ℤ) : ℚ) / 10 ^ 2 = 95/100 := by norm_num
    rw [← this]
    exact hr2

/-- Shape of the whole synthetic batch: exactly 3 patterns, sorted by
descending similarity, all with the mock provenance and the per-pattern
ranges of `mk_mock_pattern_spec`, relative to the post-seeding base. -/
theorem generate_mock_patterns_spec (g : DrawStream) (hg : UnitStream g)
    (request : PredictionRequest) (context : Ctx) (st : RState) :
    (generate_mock_patterns g request context st).1.length = 3 ∧
    List.Pairwise (fun a b : Pattern => b.similarity ≤ a.similarity)
      (generate_mock_patterns g request context st).1 ∧
    ∀ p ∈ (generate_mock_patterns g request context st).1,
      p.metadata.source = "mock" ∧
      (85/100 : ℚ) ≤ p.similarity ∧ p.similarity ≤ 95/100 ∧
      (∃ m : ℤ, 3 ≤ m ∧ m ≤ 12 ∧ p.date = request.service_date.ordinal - 30 * m) ∧
      (∃ j : ℤ, -10 ≤ j ∧ j ≤ 10 ∧ p.actual_covers =
        max 30 ((mock_base_covers g context
          (seedR (request.service_date.ordinal + 2000) st)).1 + j)) := by
  refine ⟨length_generate_mock_patterns g request context st, ?_, ?_⟩
  · rw [generate_mock_patterns_eq]
    exact sorted_sortBySimilarityDesc _
  · intro p hp
    rw [generate_mock_patterns_eq, mem_sortBySimilarityDesc] at hp
    simp only [mock_pattern_list, List.mem_cons, List.not_mem_nil, or_false] at hp
    rcases hp with rfl | rfl | rfl
    · exact mk_mock_pattern_spec g hg context request.service_date _ 0 _
    · exact mk_mock_pattern_spec g hg context request.service_date _ 1 _
    · exact mk_mock_pattern_spec g hg context request.service_date _ 2 _

/-- `_fetch_external_context` sets the holiday flag from the fixed table. -/
theorem fetch_is_holiday (g : DrawStream) (request : PredictionRequest) (st : RState) :
    ((fetch_external_context g request st).1).is_holiday =
      is_mock_holiday request.service_date := rfl

/-- `_fetch_external_context` sets the holiday name from the fixed table. -/
theorem fetch_holiday_name (g : DrawStream) (request : PredictionRequest) (st : RState) :
    ((fetch_external_context g request st).1).holiday_name =
      (if is_mock_holiday request.service_date
       then get_holiday_name request.service_date else none) := rfl

theorem mock_base_covers_xmas (g : DrawStream) (hg : UnitStream g) (context : Ctx)
    (st : RState) (hhol : context.is_holiday = true)
    (hname : context.holiday_name = some ("Christmas Eve") ∨
      context.holiday_name = some ("Christmas")) :
    40 ≤ (mock_base_covers g context st).1 ∧ (mock_base_covers g context st).1 ≤ 70 := by
  have hsel : (mock_base_covers g context st).1 =
      (pyRandint g 40 70
        ((if context.day_type = "weekend" then pyRandint g 130 160 st
          else if context.day_type = "friday" then pyRandint g 120 145 st
          else pyRandint g 100 130 st).2)).1 := by
    unfold mock_base_covers
    rcases hname with h | h <;> simp [hhol, h]
  rw [hsel]
  exact pyRandint_bounds g hg 40 70 _ (by norm_num)

theorem mock_base_covers_nye (g : DrawStream) (hg : UnitStream g) (context : Ctx)
    (st : RState) (hhol : context.is_holiday = true)
    (hname : context.holiday_name = some ("New Year's Eve")) :
    180 ≤ (mock_base_covers g context st).1 ∧ (mock_base_covers g context st).1 ≤ 220 := by
  have hsel : (mock_base_covers g context st).1 =
      (pyRandint g 180 220
        ((if context.day_type = "weekend" then pyRandint g 130 160 st
          else if context.day_type = "friday" then pyRandint g 120 145 st
          else pyRandint g 100 130 st).2)).1 := by
    unfold mock_base_covers
    simp [hhol, hname]
  rw [hsel]
  exact pyRandint_bounds g hg 180 220 _ (by norm_num)

theorem mock_base_covers_nyd (g : DrawStream) (hg : UnitStream g) (context : Ctx)
    (st : RState) (hhol : context.is_holiday = true)
    (hname : context.holiday_name = some ("New Year's Day")) :
    50 ≤ (mock_base_covers g context st).1 ∧ (mock_base_covers g context st).1 ≤ 80 := by
  have hsel : (mock_base_covers g context st).1 =
      (pyRandint g 50 80
        ((if context.day_type = "weekend" then pyRandint g 130 160 st
          else if context.day_type = "friday" then pyRandint g 120 145 st
          else pyRandint g 100 130 st).2)).1 := by
    unfold mock_base_covers
    simp [hhol, hname]
  rw [hsel]
  exact pyRandint_bounds g hg 50 80 _ (by norm_num)

/-- C4: `_find_similar_patterns` absorbs every retrieval failure —
unavailable clients, a raised exception, or zero hits — returning the
deterministic synthetic generator's output, which is never empty; no error
reaches the caller. -/
theorem retrieval_absorbs_failures (avail : Bool) (outcome : RetrievalOutcome)
    (g : DrawStream) (request : PredictionRequest) (context : Ctx) (st : RState)
    (hfail : avail = false ∨ outcome = .failure ∨ outcome = .success []) :
    (find_similar_patterns avail outcome g request context st).1 =
      (generate_mock_patterns g request context st).1 ∧
    (find_similar_patterns avail outcome g request context st).1 ≠ [] := by
  rw [find_similar_patterns_fallback avail outcome g request context st hfail]
  refine ⟨rfl, ?_⟩
  intro hnil
  have h3 := length_generate_mock_patterns g request context st
  rw [hnil] at h3
  simp at h3

/-- C4 witness: unavailable clients on a concrete request. -/
theorem retrieval_absorbs_failures_witness :
    (find_similar_patterns false .failure gZero reqJun10 ctxPlain st0).1 =
      (generate_mock_patterns gZero reqJun10 ctxPlain st0).1 ∧
    (find_similar_patterns false .failure gZero reqJun10 ctxPlain st0).1 ≠ [] :=
  retrieval_absorbs_failures false .failure gZero reqJun10 ctxPlain st0 (Or.inl rfl)

/-- C5 counterexample: in the degraded path the provenance tag the code
writes is "mock", not the claimed literal "synthetic". -/
theorem synthetic_provenance_counterexample :
    ((find_similar_patterns false .failure gZero reqJun10 ctxPlain st0).1.headD
      default).metadata.source = "mock" ∧
    ((find_similar_patterns false .failure gZero reqJun10 ctxPlain st0).1.headD
      default).metadata.source ≠ "synthetic" := by
  have hfall := find_similar_patterns_fallback false .failure gZero reqJun10 ctxPlain st0
    (Or.inl rfl)
  have hlen := length_generate_mock_patterns gZero reqJun10 ctxPlain st0
  have hmem : ((generate_mock_patterns gZero reqJun10 ctxPlain st0).1.headD default) ∈
      (generate_mock_patterns gZero reqJun10 ctxPlain st0).1 := by
    cases hcase : (generate_mock_patterns gZero reqJun10 ctxPlain st0).1 with
    | nil =>
      rw [hcase] at hlen
      simp at hlen
    | cons a rest => simp
  have hsrc := generate_mock_patterns_source gZero reqJun10 ctxPlain st0 _ hmem
  rw [hfall]
  refine ⟨hsrc, ?_⟩
  rw [hsrc]
  decide

/-- C5 (amended): when the index/embedding dependency is unavailable,
raises, or returns zero hits, `_find_similar_patterns` returns exactly 3
patterns, each tagged with provenance "mock" (the code's synthetic tag —
not the literal "synthetic"), sorted by descending similarity, each with
similarity in [0.85, 0.95], each dated 3–12 thirty-day months in the past,
and each with actual_covers = base + randint(-10, 10) floored at 30. -/
theorem synthetic_fallback_shape (g : DrawStream) (hg : UnitStream g) (avail : Bool)
    (outcome : RetrievalOutcome) (request : PredictionRequest) (context : Ctx) (st : RState)
    (hfail : avail = false ∨ outcome = .failure ∨ outcome = .success []) :
    (find_similar_patterns avail outcome g request context st).1.length = 3 ∧
    List.Pairwise (fun a b : Pattern => b.similarity ≤ a.similarity)
      (find_similar_patterns avail outcome g request context st).1 ∧
    ∀ p ∈ (find_similar_patterns avail outcome g request context st).1,
      p.metadata.source = "mock" ∧
      (85/100 : ℚ) ≤ p.similarity ∧ p.similarity ≤ 95/100 ∧
      (∃ m : ℤ, 3 ≤ m ∧ m ≤ 12 ∧ p.date = request.service_date.ordinal - 30 * m) ∧
      (∃ j : ℤ, -10 ≤ j ∧ j ≤ 10 ∧ p.actual_covers =
        max 30 ((mock_base_covers g context
          (seedR (request.service_date.ordinal + 2000) st)).1 + j)) := by
  rw [find_similar_patterns_fallback avail outcome g request context st hfail]
  exact generate_mock_patterns_spec g hg request context st

/-- C5 amended witness: unavailable clients on a concrete request. -/
theorem synthetic_fallback_shape_witness :
    (find_similar_patterns false .failure gZero reqJun10 ctxPlain st0).1.length = 3 ∧
    List.Pairwise (fun a b : Pattern => b.similarity ≤ a.similarity)
      (find_similar_patterns false .failure gZero reqJun10 ctxPlain st0).1 ∧
    ∀ p ∈ (find_similar_patterns false .failure gZero reqJun10 ctxPlain st0).1,
      p.metadata.source = "mock" ∧
      (85/100 : ℚ) ≤ p.similarity ∧ p.similarity ≤ 95/100 ∧
      (∃ m : ℤ, 3 ≤ m ∧ m ≤ 12 ∧ p.date = reqJun10.service_date.ordinal - 30 * m) ∧
      (∃ j : ℤ, -10 ≤ j ∧ j ≤ 10 ∧ p.actual_covers =
        max 30 ((mock_base_covers gZero ctxPlain
          (seedR (reqJun10.service_date.ordinal + 2000) st0)).1 + j)) :=
  synthetic_fallback_shape gZero gZero_unit false .failure reqJun10 ctxPlain st0
    (Or.inl rfl)

/-- C6: requesting a December 25 service date makes the synthetic
generator's base cover count (before per-pattern jitter) land in [40, 70]
regardless of day-of-week, events, or weather; December 31 yields
[180, 220] and January 1 yields [50, 80]. -/
theorem holiday_base_override (g : DrawStream) (hg : UnitStream g)
    (request : PredictionRequest) (stc stb : RState) :
    ((request.service_date.month = 12 ∧ request.service_date.day = 25) →
      40 ≤ (mock_base_covers g (fetch_external_context g request stc).1 stb).1 ∧
      (mock_base_covers g (fetch_external_context g request stc).1 stb).1 ≤ 70) ∧
    ((request.service_date.month = 12 ∧ request.service_date.day = 31) →
      180 ≤ (mock_base_covers g (fetch_external_context g request stc).1 stb).1 ∧
      (mock_base_covers g (fetch_external_context g request stc).1 stb).1 ≤ 220) ∧
    ((request.service_date.month = 1 ∧ request.service_date.day = 1) →
      50 ≤ (mock_base_covers g (fetch_external_context g request stc).1 stb).1 ∧
      (mock_base_covers g (fetch_external_context g request stc).1 stb).1 ≤ 80) := by
  refine ⟨?_, ?_, ?_⟩
  · rintro ⟨hm, hd⟩
    have hraw : is_mock_holiday request.service_date = true := by
      unfold is_mock_holiday
      rw [hm, hd]
      decide
    have hhol : ((fetch_external_context g request stc).1).is_holiday = true := by
      rw [fetch_is_holiday]
      exact hraw
    have hname : ((fetch_external_context g request stc).1).holiday_name =
        some ("Christmas") := by
      rw [fetch_holiday_name, if_pos hraw]
      unfold get_holiday_name
      rw [hm, hd]
      decide
    exact mock_base_covers_xmas g hg _ stb hhol (Or.inr hname)
  · rintro ⟨hm, hd⟩
    have hraw : is_mock_holiday request.service_date = true := by
      unfold is_mock_holiday
      rw [hm, hd]
      decide
    have hhol : ((fetch_external_context g request stc).1).is_holiday = true := by
      rw [fetch_is_holiday]
      exact hraw
    have hname : ((fetch_external_context g request stc).1).holiday_name =
        some ("New Year's Eve") := by
      rw [fetch_holiday_name, if_pos hraw]
      unfold get_holiday_name
      rw [hm, hd]
      decide
    exact mock_base_covers_nye g hg _ stb hhol hname
  · rintro ⟨hm, hd⟩
    have hraw : is_mock_holiday request.service_date = true := by
      unfold is_mock_holiday
      rw [hm, hd]
      decide
    have hhol : ((fetch_external_context g request stc).1).is_holiday = true := by
      rw [fetch_is_holiday]
      exact hraw
    have hname : ((fetch_external_context g request stc).1).holiday_name =
        some ("New Year's Day") := by
      rw [fetch_holiday_name, if_pos hraw]
      unfold get_holiday_name
      rw [hm, hd]
      decide
    exact mock_base_covers_nyd g hg _ stb hhol hname

/-- C6 witness: Christmas Day 2024 on the all-zero stream. -/
theorem holiday_base_override_witness :
    40 ≤ (mock_base_covers gZero (fetch_external_context gZero reqDec25 st0).1 st0).1 ∧
    (mock_base_covers gZero (fetch_external_context gZero reqDec25 st0).1 st0).1 ≤ 70 :=
  (holiday_base_override gZero gZero_unit reqDec25 st0 st0).1 ⟨rfl, rfl⟩

/-- C10 witness at the spec's example list. -/
theorem prediction_within_interval_witness :
    (∃ p ∈ [exPat100, exPat120],
      p.actual_covers ≤ (calculate_prediction [exPat100, exPat120]).predicted_covers) ∧
    (∃ p ∈ [exPat100, exPat120],
      (calculate_prediction [exPat100, exPat120]).predicted_covers ≤ p.actual_covers) ∧
    (2 ≤ ([exPat100, exPat120] : List Pattern).length →
      ∃ mn mx,
        (calculate_prediction [exPat100, exPat120]).accuracy_metrics.prediction_interval
            = some (mn, mx) ∧
        mn ≤ (calculate_prediction [exPat100, exPat120]).predicted_covers ∧
        (calculate_prediction [exPat100, exPat120]).predicted_covers ≤ mx) :=
  prediction_within_interval [exPat100, exPat120] (by simp)
    (by
      intro p hp
      rcases List.mem_cons.mp hp with rfl | hp'
      · norm_num [exPat100]
      · rw [List.mem_singleton] at hp'
        subst hp'
        norm_num [exPat120])
    (by
      have : total_weight [exPat100, exPat120] = 17/10 := by
        simp [total_weight, exPat100, exPat120]
        norm_num
      rw [this]
      norm_num)

end FB
